import Mathlib

/-!
Shallow embedding of the aquarium-monitoring backend (`backend/server.js`)
alert-evaluation, ingestion and status-derivation logic, with proofs of the
specified properties.

JavaScript numbers are modelled as `Rat`; SQLite `NULL`-able columns as
`Option Rat`; millisecond timestamps (`Date.now()`) as `Int`; the process-local
maps `lastAlertState` / `lastAlertSentTime` as functions returning `Option`
(a missing key is `none`, `delete` stores `none`).
-/

namespace Aquarium

/-- A row of the `sensors` table, restricted to the columns the alert and
status logic reads. `type_` is the source's `type` column (a Lean keyword). -/
structure Sensor where
  id : Nat
  name : String
  type_ : String
  unit : String
  sensor_type : String
  min_value : Option Rat
  max_value : Option Rat
  float_ok_value : Option Rat
  alerts_enabled : Int
  api_key : String
deriving Repr, DecidableEq

/-- Result of `getPushoverSettings()`: `token`/`user` are the stored strings
(`''` when unset, which is falsy in the source's guard), `alertsEnabled` is
`alerts?.value !== '0'`, and `alertRepeat` is `parseInt(alertRepeat?.value||'0')`. -/
structure PushoverSettings where
  token : String
  user : String
  alertsEnabled : Bool
  alertRepeat : Int
deriving Repr, DecidableEq

/-- A pushover notification request: the arguments of one
`sendPushoverNotification(title, message, priority)` call. -/
structure Notification where
  title : String
  message : String
  priority : Nat
deriving Repr, DecidableEq

/-- The in/out-of-range decision together with the alert message, as computed
by the first half of `checkAndNotifyAlert` (`let isAlert`/`let alertMessage`). -/
structure EvalResult where
  isAlert : Bool
  alertMessage : String
deriving Repr, DecidableEq

/-- The value-sensor `max` branch of `checkAndNotifyAlert`:
`else if (sensor.max_value !== null && value > sensor.max_value)`. -/
def evalMaxBranch (sensor : Sensor) (value : Rat) : EvalResult :=
  match sensor.max_value with
  | some mx =>
    if value > mx then
      { isAlert := true
        alertMessage := sensor.name ++ " is TOO HIGH: " ++ toString value ++ sensor.unit
          ++ " (max: " ++ toString mx ++ sensor.unit ++ ")" }
    else { isAlert := false, alertMessage := "" }
  | none => { isAlert := false, alertMessage := "" }

/-- The `isAlert`/`alertMessage` computation of `checkAndNotifyAlert`
(server.js, float branch `value !== okValue` with `okValue = float_ok_value ?? 1`,
value branch `min_value !== null && value < min_value` then the `max` branch). -/
def evalAlert (sensor : Sensor) (value : Rat) : EvalResult :=
  if sensor.sensor_type = "float" then
    let okValue := sensor.float_ok_value.getD 1
    let isAlert := value ≠ okValue
    { isAlert := isAlert
      alertMessage :=
        if isAlert then sensor.name ++ " is in ALERT state (reading: " ++ toString value ++ ")"
        else sensor.name ++ " is back to normal" }
  else
    match sensor.min_value with
    | some mn =>
      if value < mn then
        { isAlert := true
          alertMessage := sensor.name ++ " is TOO LOW: " ++ toString value ++ sensor.unit
            ++ " (min: " ++ toString mn ++ sensor.unit ++ ")" }
      else evalMaxBranch sensor value
    | none => evalMaxBranch sensor value

/-- The process-local alert-tracking state: `lastAlertState` (per-sensor
"currently alerting" flag) and `lastAlertSentTime` (per-sensor timestamp of the
last notification sent, ms). A key absent from the JS object is `none`. -/
structure AlertState where
  lastAlertState : Nat → Option Bool
  lastAlertSentTime : Nat → Option Int

/-- `checkAndNotifyAlert(sensor, value)` as a pure state transformer: given
the pushover settings it read, the current time `now` (`Date.now()`) and the
tracking state, it returns the new state and the notification it sent, if any. -/
def checkAndNotifyAlert (settings : PushoverSettings) (sensor : Sensor) (value : Rat)
    (now : Int) (st : AlertState) : AlertState × Option Notification :=
  if sensor.alerts_enabled = 0 then (st, none)
  else if ¬ settings.alertsEnabled ∨ settings.token = "" ∨ settings.user = "" then (st, none)
  else
    let e := evalAlert sensor value
    let prevState := st.lastAlertState sensor.id
    if e.isAlert then
      if prevState ≠ some true then
        -- state just changed to alert: always notify
        ({ lastAlertState := fun i => if i = sensor.id then some true else st.lastAlertState i
           lastAlertSentTime := fun i => if i = sensor.id then some now else st.lastAlertSentTime i },
         some ⟨"⚠️ " ++ sensor.type_ ++ " Alert", e.alertMessage, 1⟩)
      else
        -- already in alert state: check repeat interval
        let repeatMinutes := settings.alertRepeat
        let lastSent := (st.lastAlertSentTime sensor.id).getD 0
        let repeatMs := repeatMinutes * 60 * 1000
        if repeatMinutes > 0 ∧ now - lastSent ≥ repeatMs then
          ({ lastAlertState := st.lastAlertState
             lastAlertSentTime := fun i => if i = sensor.id then some now else st.lastAlertSentTime i },
           some ⟨"⚠️ " ++ sensor.type_ ++ " Alert", e.alertMessage, 1⟩)
        else (st, none)
    else
      if prevState = some true then
        -- was in alert, now normal: send recovery notification, clear repeat timer
        ({ lastAlertState := fun i => if i = sensor.id then some false else st.lastAlertState i
           lastAlertSentTime := fun i => if i = sensor.id then none else st.lastAlertSentTime i },
         some ⟨"✓ " ++ sensor.type_ ++ " Normal",
               sensor.name ++ " is back within normal range: " ++ toString value ++ sensor.unit, 0⟩)
      else (st, none)

/-- The guard `b !== null && v < b` (comparison against an optional lower bound). -/
def ltBound (v : Rat) : Option Rat → Bool
  | some mn => decide (v < mn)
  | none => false

/-- The guard `b !== null && v > b` (comparison against an optional upper bound). -/
def gtBound (v : Rat) : Option Rat → Bool
  | some mx => decide (v > mx)
  | none => false

/-- `getValueStatus(value, minValue, maxValue)`: dashboard status for a
value-based sensor. -/
def getValueStatus (value minValue maxValue : Option Rat) : String :=
  match value with
  | none => "No Data"
  | some v =>
    if minValue = none ∧ maxValue = none then "Active"
    else if ltBound v minValue then "Too Low"
    else if gtBound v maxValue then "Too High"
    else "Normal"

/-- `getFloatStatus(value, okValue = 1)`: dashboard status for a float-switch
sensor. The endpoint passes the raw `float_ok_value` column, which is `NULL`
(not `undefined`) when unset, so the JS default parameter never fires and
`isOk` is the strict equality `value === okValue`. -/
def getFloatStatus (value okValue : Option Rat) : String :=
  match value with
  | none => "No Data"
  | some v => if some v = okValue then "OK" else "Alert"

/-- The `status` field computed per sensor by `GET /api/parameters`
(float branch calls `getFloatStatus`, value branch `getValueStatus`). -/
def parameterStatus (sensor : Sensor) (latest : Option Rat) : String :=
  if sensor.sensor_type = "float" then getFloatStatus latest sensor.float_ok_value
  else getValueStatus latest sensor.min_value sensor.max_value

/-! ## Data ingestion -/

/-- `isValidApiKey`: the string matches `/^[0-9a-f]{32}$/i`. -/
def isHexDigit (c : Char) : Bool :=
  ('0' ≤ c ∧ c ≤ '9') ∨ ('a' ≤ c ∧ c ≤ 'f') ∨ ('A' ≤ c ∧ c ≤ 'F')

/-- `isValidApiKey(str)`: 32 hex characters (case-insensitive). -/
def isValidApiKey (s : String) : Bool :=
  s.data.length = 32 ∧ s.data.all isHexDigit

/-- `sanitizeNumber(value, min, max, defaultVal)`. The input is the result of
`parseFloat(value)`: `none` models `NaN` (non-numeric input); out-of-bounds
numbers are clamped to the bound. -/
def sanitizeNumber (value : Option Rat) (min max defaultVal : Option Rat) : Option Rat :=
  match value with
  | none => defaultVal
  | some num =>
    if ltBound num min then min
    else if gtBound num max then max
    else some num

/-- The database state the ingestion endpoints touch: the `sensors` table and
the `readings` table (sensor id, value; insertion order preserved). -/
structure Db where
  sensors : List Sensor
  readings : List (Nat × Rat)

/-- The HTTP response of an ingestion endpoint. -/
structure IngestResult where
  status : Nat
  error : Option String
  success : Bool
deriving Repr, DecidableEq

/-- `POST /api/data/:api_key`. `value` is `parseFloat(req.body.value)`
(`none` for `NaN`). Returns the new database, the new alert-tracking state,
the response, and the notification `checkAndNotifyAlert` sent, if any. -/
def postData (db : Db) (st : AlertState) (settings : PushoverSettings)
    (api_key : String) (value : Option Rat) (now : Int) :
    Db × AlertState × IngestResult × Option Notification :=
  if ¬ isValidApiKey api_key then
    (db, st, ⟨400, some "Invalid API key format", false⟩, none)
  else
    match sanitizeNumber value (some (-100000)) (some 100000) none with
    | none => (db, st, ⟨400, some "Valid numeric value is required", false⟩, none)
    | some numValue =>
      match db.sensors.find? (fun s => s.api_key = api_key) with
      | none => (db, st, ⟨404, some "Invalid API key", false⟩, none)
      | some sensor =>
        -- for float switches, normalize to 0 or 1
        let finalValue := if sensor.sensor_type = "float" then
            (if numValue ≠ 0 then 1 else 0) else numValue
        let db' : Db := { db with readings := db.readings ++ [(sensor.id, finalValue)] }
        let r := checkAndNotifyAlert settings sensor finalValue now st
        (db', r.1, ⟨200, none, true⟩, r.2)

/-- `GET /api/data/:api_key/:value`: identical to `postData` except the
invalid-value error message, with `value` parsed from the URL segment. -/
def getData (db : Db) (st : AlertState) (settings : PushoverSettings)
    (api_key : String) (value : Option Rat) (now : Int) :
    Db × AlertState × IngestResult × Option Notification :=
  if ¬ isValidApiKey api_key then
    (db, st, ⟨400, some "Invalid API key format", false⟩, none)
  else
    match sanitizeNumber value (some (-100000)) (some 100000) none with
    | none => (db, st, ⟨400, some "Invalid value", false⟩, none)
    | some numValue =>
      match db.sensors.find? (fun s => s.api_key = api_key) with
      | none => (db, st, ⟨404, some "Invalid API key", false⟩, none)
      | some sensor =>
        let finalValue := if sensor.sensor_type = "float" then
            (if numValue ≠ 0 then 1 else 0) else numValue
        let db' : Db := { db with readings := db.readings ++ [(sensor.id, finalValue)] }
        let r := checkAndNotifyAlert settings sensor finalValue now st
        (db', r.1, ⟨200, none, true⟩, r.2)

/-! ## Pushover delivery -/

/-- `{success, error}` object returned by `sendPushoverNotification`. -/
structure SendResult where
  success : Bool
  error : Option String
deriving Repr, DecidableEq

/-- Outcome of the external `fetch` to the Pushover API: either a parsed JSON
body (`data.status`, `data.errors`; `none` models a missing field) or a thrown
error with its message. -/
inductive FetchOutcome where
  | ok (status : Option Int) (errors : Option (List String))
  | threw (msg : String)
deriving Repr, DecidableEq

/-- `sendPushoverNotification(title, message, priority)`: every outcome of the
external call, thrown errors included, is turned into a returned
`SendResult`; nothing is retried. -/
def sendPushoverNotification (settings : PushoverSettings) (title message : String)
    (priority : Nat) (fetch : FetchOutcome) : SendResult :=
  if settings.token = "" ∨ settings.user = "" then
    { success := false, error := some "Pushover not configured" }
  else
    match fetch with
    | .ok status errors =>
      if status = some 1 then { success := true, error := none }
      else
        { success := false
          error := some (match errors with
            | some es =>
              let joined := String.intercalate ", " es
              if joined = "" then "Unknown error" else joined
            | none => "Unknown error") }
    | .threw msg => { success := false, error := some msg }

/-- Performs the send requests emitted by `checkAndNotifyAlert` (the endpoint
fires them without awaiting; its response never depends on the results). -/
def runNotification (settings : PushoverSettings) (fetch : FetchOutcome) :
    Option Notification → List SendResult
  | some n => [sendPushoverNotification settings n.title n.message n.priority fetch]
  | none => []

/-- `POST /api/data/:api_key` together with the delivery of the notification
it triggered, `fetch` being the outcome of the external Pushover call. -/
def postDataRun (db : Db) (st : AlertState) (settings : PushoverSettings)
    (api_key : String) (value : Option Rat) (now : Int) (fetch : FetchOutcome) :
    Db × AlertState × IngestResult × List SendResult :=
  let r := postData db st settings api_key value now
  (r.1, r.2.1, r.2.2.1, runNotification settings fetch r.2.2.2)

/-! ## Telemetry daily summary (`GET /api/telemetry/:type`) -/

/-- A reading row of the telemetry query, with `recorded_at` already converted
to its day key by `getDateInTimezone(recorded_at, timezone)`. -/
structure TelemetryReading where
  value : Rat
  day : String
deriving Repr, DecidableEq

/-- The per-reading out-of-range test of the daily-summary loop (float:
`value !== (float_ok_value ?? 1)`; value sensor: either bound violated). -/
def isOutOfRange (sensor : Sensor) (v : Rat) : Bool :=
  if sensor.sensor_type = "float" then decide (v ≠ sensor.float_ok_value.getD 1)
  else ltBound v sensor.min_value || gtBound v sensor.max_value

/-- A `dailySummary[date]` entry while the aggregation loop runs. -/
structure DayAcc where
  date : String
  hasAlert : Bool
  readings : List Rat
  min : Rat
  max : Rat
deriving Repr, DecidableEq

/-- The mutations the loop body applies to the (possibly fresh) entry for the
reading's date: push the value, update `min`/`max`, set `hasAlert` if the
reading is out of range. -/
def updateDay (sensor : Sensor) (d : DayAcc) (v : Rat) : DayAcc :=
  { d with
    readings := d.readings ++ [v]
    min := min d.min v
    max := max d.max v
    hasAlert := d.hasAlert || isOutOfRange sensor v }

/-- The fresh entry created when a date is first seen
(`{date, hasData: true, hasAlert: false, readings: [], min: r.value, max: r.value, avg: 0}`). -/
def newDay (date : String) (v : Rat) : DayAcc :=
  { date := date, hasAlert := false, readings := [], min := v, max := v }

/-- One iteration of `readings.forEach(...)`: the entry map is a list in key
insertion order, as JS object string keys are enumerated. -/
def addReading (sensor : Sensor) (acc : List DayAcc) (r : TelemetryReading) : List DayAcc :=
  if acc.any (fun d => d.date = r.day) then
    acc.map (fun d => if d.date = r.day then updateDay sensor d r.value else d)
  else
    acc ++ [updateDay sensor (newDay r.day r.value) r.value]

/-- A finished daily-summary object (after `avg`/`count` are filled in and the
raw readings list is dropped). -/
structure DaySummary where
  date : String
  hasAlert : Bool
  min : Rat
  max : Rat
  avg : Rat
  count : Nat
deriving Repr, DecidableEq

/-- `day.avg = day.readings.reduce((a,b) => a+b, 0) / day.readings.length`,
`day.count = day.readings.length`. -/
def finalizeDay (d : DayAcc) : DaySummary :=
  { date := d.date, hasAlert := d.hasAlert, min := d.min, max := d.max
    avg := d.readings.foldl (· + ·) 0 / (d.readings.length : Rat)
    count := d.readings.length }

/-- The `dailySummary` array of the response:
`Object.values(dailySummary).sort((a,b) => a.date.localeCompare(b.date))`. -/
def dailySummary (sensor : Sensor) (rs : List TelemetryReading) : List DaySummary :=
  ((rs.foldl (addReading sensor) []).map finalizeDay).mergeSort
    (fun a b => a.date ≤ b.date)

/-- The values of the telemetry readings whose day key is `d`, in reading
order (the readings the loop groups into day `d`). -/
def valuesOn (rs : List TelemetryReading) (d : String) : List Rat :=
  (rs.filter (fun r => r.day = d)).map (fun r => r.value)

/-- Correctness of one accumulated day entry with respect to the readings
processed so far: it holds exactly the values of its date, in order, and its
`hasAlert`/`min`/`max` fields describe them. -/
def entryInv (sensor : Sensor) (rs : List TelemetryReading) (d : DayAcc) : Prop :=
  d.readings = valuesOn rs d.date
  ∧ d.readings ≠ []
  ∧ d.hasAlert = d.readings.any (isOutOfRange sensor)
  ∧ d.min ∈ d.readings ∧ d.max ∈ d.readings
  ∧ (∀ x ∈ d.readings, d.min ≤ x ∧ x ≤ d.max)

/-- Loop invariant of the daily-summary aggregation: each accumulated entry is
correct for the readings processed so far, entry dates are distinct, and every
date seen so far has an entry. -/
def accOk (sensor : Sensor) (rs : List TelemetryReading) (acc : List DayAcc) : Prop :=
  (∀ d ∈ acc, entryInv sensor rs d)
  ∧ List.Pairwise (fun a b => a.date ≠ b.date) acc
  ∧ (∀ day, valuesOn rs day ≠ [] → ∃ d ∈ acc, d.date = day)

/-! ## Concrete fixtures (used by witnesses) -/

/-- A value sensor with bounds min=24, max=27 (the spec's temperature example). -/
def tempSensor : Sensor :=
  { id := 1, name := "Temp", type_ := "Temperature", unit := "°C"
    sensor_type := "value", min_value := some 24, max_value := some 27
    float_ok_value := none, alerts_enabled := 1
    api_key := "0123456789abcdef0123456789abcdef" }

/-- A float-switch sensor with OK value 1. -/
def floatSensor1 : Sensor :=
  { id := 2, name := "Water Level", type_ := "Water Level", unit := ""
    sensor_type := "float", min_value := none, max_value := none
    float_ok_value := some 1, alerts_enabled := 1
    api_key := "abcdef0123456789abcdef0123456789" }

/-- A value sensor with no bounds configured. -/
def boundlessSensor : Sensor :=
  { id := 3, name := "Flow", type_ := "Flow", unit := ""
    sensor_type := "value", min_value := none, max_value := none
    float_ok_value := none, alerts_enabled := 1
    api_key := "00112233445566778899aabbccddeeff" }

/-- Pushover fully configured, repeat interval 0 minutes. -/
def settingsRepeat0 : PushoverSettings :=
  { token := "t", user := "u", alertsEnabled := true, alertRepeat := 0 }

/-- Pushover fully configured, repeat interval 5 minutes. -/
def settingsRepeat5 : PushoverSettings :=
  { token := "t", user := "u", alertsEnabled := true, alertRepeat := 5 }

/-- Fresh tracking state: no sensor has alerted yet. -/
def emptyState : AlertState :=
  { lastAlertState := fun _ => none, lastAlertSentTime := fun _ => none }

/-- Tracking state in which sensor 1 is alerting, last notified at t=0 ms. -/
def alertingState1 : AlertState :=
  { lastAlertState := fun i => if i = 1 then some true else none
    lastAlertSentTime := fun i => if i = 1 then some 0 else none }

/-- Three telemetry readings over two days for the temperature sensor. -/
def exReadings : List TelemetryReading :=
  [⟨25, "2025-01-01"⟩, ⟨23, "2025-01-01"⟩, ⟨26, "2025-01-02"⟩]

/-- The expected first daily summary of `exReadings` for `tempSensor`:
two readings, min 23, max 25, avg 24, one of them (23) below the min bound. -/
def exDay1 : DaySummary :=
  { date := "2025-01-01", hasAlert := true, min := 23, max := 25, avg := 24, count := 2 }

/-- The expected second daily summary of `exReadings` for `tempSensor`. -/
def exDay2 : DaySummary :=
  { date := "2025-01-02", hasAlert := false, min := 26, max := 26, avg := 26, count := 1 }

/-! ## Helper lemmas -/

theorem ltBound_eq_true_iff (v : Rat) (o : Option Rat) :
    ltBound v o = true ↔ ∃ mn, o = some mn ∧ v < mn := by
  cases o <;> simp [ltBound]

theorem gtBound_eq_true_iff (v : Rat) (o : Option Rat) :
    gtBound v o = true ↔ ∃ mx, o = some mx ∧ v > mx := by
  cases o <;> simp [gtBound]

theorem evalMaxBranch_isAlert (sensor : Sensor) (v : Rat) :
    (evalMaxBranch sensor v).isAlert = gtBound v sensor.max_value := by
  unfold evalMaxBranch
  cases h : sensor.max_value with
  | none => simp [gtBound]
  | some mx => by_cases hv : v > mx <;> simp [gtBound, hv]

theorem evalAlert_value_isAlert (sensor : Sensor) (v : Rat)
    (hf : sensor.sensor_type ≠ "float") :
    (evalAlert sensor v).isAlert = (ltBound v sensor.min_value || gtBound v sensor.max_value) := by
  unfold evalAlert
  rw [if_neg hf]
  cases h : sensor.min_value with
  | none => simp [ltBound, evalMaxBranch_isAlert]
  | some mn =>
    by_cases hv : v < mn
    · simp [ltBound, hv]
    · simp [ltBound, hv, evalMaxBranch_isAlert]

theorem checkAndNotifyAlert_notAlert_priority (settings : PushoverSettings) (sensor : Sensor)
    (v : Rat) (now : Int) (st : AlertState)
    (h : (evalAlert sensor v).isAlert = false) :
    ∀ n, (checkAndNotifyAlert settings sensor v now st).2 = some n → n.priority = 0 := by
  intro n hn
  simp only [checkAndNotifyAlert, h] at hn
  split at hn
  · cases hn
  · split at hn
    · cases hn
    · simp only [Bool.false_eq_true, if_false] at hn
      split at hn
      · cases hn
        rfl
      · cases hn

/-! ## Claims C3, C4, C5 -/

/-- C3: for a value sensor, the evaluator alerts iff a configured bound is
violated (`min` set and `v < min`, or `max` set and `v > max`); the message
names the violated bound (TOO LOW with the min bound when `v < min`, TOO HIGH
with the max bound when `v > max` and the min bound is not violated). -/
theorem value_alert_characterization (sensor : Sensor) (v : Rat)
    (hv : sensor.sensor_type = "value") :
    ((evalAlert sensor v).isAlert = true ↔
        (∃ mn, sensor.min_value = some mn ∧ v < mn) ∨
        (∃ mx, sensor.max_value = some mx ∧ v > mx))
    ∧ (∀ mn, sensor.min_value = some mn → v < mn →
        (evalAlert sensor v).alertMessage = sensor.name ++ " is TOO LOW: " ++ toString v
          ++ sensor.unit ++ " (min: " ++ toString mn ++ sensor.unit ++ ")")
    ∧ (∀ mx, sensor.max_value = some mx → v > mx → ltBound v sensor.min_value = false →
        (evalAlert sensor v).alertMessage = sensor.name ++ " is TOO HIGH: " ++ toString v
          ++ sensor.unit ++ " (max: " ++ toString mx ++ sensor.unit ++ ")") := by
  have hf : sensor.sensor_type ≠ "float" := by rw [hv]; decide
  refine ⟨?_, ?_, ?_⟩
  · rw [evalAlert_value_isAlert sensor v hf]
    simp only [Bool.or_eq_true, ltBound_eq_true_iff, gtBound_eq_true_iff]
  · intro mn hmn hlt
    unfold evalAlert
    rw [if_neg hf, hmn]
    simp [hlt]
  · intro mx hmx hgt hnl
    unfold evalAlert
    rw [if_neg hf]
    cases h : sensor.min_value with
    | none =>
      unfold evalMaxBranch
      rw [hmx]
      simp [hgt]
    | some mn =>
      have hnlt : ¬ (v < mn) := by
        rw [h] at hnl
        simpa [ltBound] using hnl
      dsimp only
      rw [if_neg hnlt]
      unfold evalMaxBranch
      rw [hmx]
      simp [hgt]

/-- Witness for C3 at the spec's example: min=24, max=27; 23 alerts (too low),
28 alerts (too high), 25 does not alert. -/
theorem value_alert_characterization_witness :
    (evalAlert tempSensor 23).isAlert = true ∧
    (evalAlert tempSensor 28).isAlert = true ∧
    (evalAlert tempSensor 25).isAlert = false := by
  refine ⟨(value_alert_characterization tempSensor 23 rfl).1.mpr (Or.inl ⟨24, rfl, by norm_num⟩),
    (value_alert_characterization tempSensor 28 rfl).1.mpr (Or.inr ⟨27, rfl, by norm_num⟩), ?_⟩
  decide

/-- C4: for a float sensor with a configured OK value, the evaluator alerts
iff the reading differs from that OK value. -/
theorem float_alert_characterization (sensor : Sensor) (v ok : Rat)
    (hf : sensor.sensor_type = "float") (hok : sensor.float_ok_value = some ok) :
    (evalAlert sensor v).isAlert = true ↔ v ≠ ok := by
  unfold evalAlert
  rw [if_pos hf, hok]
  simp

/-- Witness for C4 at the spec's example: okValue=1, reading 0 alerts and
reading 1 does not. -/
theorem float_alert_characterization_witness :
    (evalAlert floatSensor1 0).isAlert = true ∧ (evalAlert floatSensor1 1).isAlert = false := by
  refine ⟨(float_alert_characterization floatSensor1 0 1 rfl rfl).mpr (by norm_num), ?_⟩
  decide

/-- C5: a value sensor with neither bound configured never alerts: the
evaluator classifies every reading as not alerting, `checkAndNotifyAlert`
never emits an alert notification (anything it emits is the priority-0
recovery message), and the dashboard status for a latest reading is
"Active". -/
theorem no_bounds_never_alerts (sensor : Sensor) (v : Rat)
    (hv : sensor.sensor_type = "value")
    (hmn : sensor.min_value = none) (hmx : sensor.max_value = none) :
    (evalAlert sensor v).isAlert = false
    ∧ (∀ settings now st n,
        (checkAndNotifyAlert settings sensor v now st).2 = some n → n.priority = 0)
    ∧ getValueStatus (some v) sensor.min_value sensor.max_value = "Active" := by
  have hf : sensor.sensor_type ≠ "float" := by rw [hv]; decide
  have hia : (evalAlert sensor v).isAlert = false := by
    rw [evalAlert_value_isAlert sensor v hf, hmn, hmx]
    rfl
  refine ⟨hia, ?_, ?_⟩
  · intro settings now st n hn
    exact checkAndNotifyAlert_notAlert_priority settings sensor v now st hia n hn
  · rw [hmn, hmx]
    rfl

/-- Witness for C5 at a boundless sensor and an arbitrary extreme reading. -/
theorem no_bounds_never_alerts_witness :
    (evalAlert boundlessSensor 99999).isAlert = false
    ∧ (∀ settings now st n,
        (checkAndNotifyAlert settings boundlessSensor 99999 now st).2 = some n → n.priority = 0)
    ∧ getValueStatus (some 99999) boundlessSensor.min_value boundlessSensor.max_value = "Active" :=
  no_bounds_never_alerts boundlessSensor 99999 rfl rfl rfl

/-! ## Claims C1, C2 -/

/-- C1: with per-sensor alerts enabled and pushover configured, an alerting
evaluation (i) always notifies and moves the tracked state to Alerting when
the state was not Alerting, and (ii) when the state is already Alerting,
notifies iff the configured repeat interval is positive and at least that many
minutes (in ms) have elapsed since the last notification for that sensor. -/
theorem alert_state_machine (settings : PushoverSettings) (sensor : Sensor) (v : Rat)
    (now : Int) (st : AlertState)
    (hen : sensor.alerts_enabled ≠ 0)
    (hae : settings.alertsEnabled = true)
    (ht : settings.token ≠ "") (hu : settings.user ≠ "")
    (halert : (evalAlert sensor v).isAlert = true) :
    (st.lastAlertState sensor.id ≠ some true →
      (checkAndNotifyAlert settings sensor v now st).2.isSome = true ∧
      (checkAndNotifyAlert settings sensor v now st).1.lastAlertState sensor.id = some true)
    ∧ (st.lastAlertState sensor.id = some true →
      ((checkAndNotifyAlert settings sensor v now st).2.isSome = true ↔
        settings.alertRepeat > 0 ∧
          now - (st.lastAlertSentTime sensor.id).getD 0 ≥ settings.alertRepeat * 60 * 1000)) := by
  have hg : ¬ (¬ settings.alertsEnabled = true ∨ settings.token = "" ∨ settings.user = "") := by
    push_neg
    exact ⟨by simp [hae], ht, hu⟩
  constructor
  · intro hprev
    unfold checkAndNotifyAlert
    rw [if_neg hen, if_neg hg]
    simp [halert, hprev]
  · intro hprev
    unfold checkAndNotifyAlert
    rw [if_neg hen, if_neg hg]
    by_cases hc : settings.alertRepeat > 0 ∧
        now - (st.lastAlertSentTime sensor.id).getD 0 ≥ settings.alertRepeat * 60 * 1000
    · simp [halert, hprev, hc]
    · simp [halert, hprev, hc]

/-- Witness for C1: a first alerting reading on a fresh state notifies and
marks the sensor Alerting; with repeat=5 min and a last notification 6 minutes
ago a further alerting reading notifies; with repeat=0 it does not. -/
theorem alert_state_machine_witness :
    ((checkAndNotifyAlert settingsRepeat0 tempSensor 23 0 emptyState).2.isSome = true
      ∧ (checkAndNotifyAlert settingsRepeat0 tempSensor 23 0 emptyState).1.lastAlertState
          tempSensor.id = some true)
    ∧ (checkAndNotifyAlert settingsRepeat5 tempSensor 23 360000 alertingState1).2.isSome = true
    ∧ (checkAndNotifyAlert settingsRepeat0 tempSensor 23 360000 alertingState1).2.isSome = false := by
  refine ⟨alert_state_machine settingsRepeat0 tempSensor 23 0 emptyState (by decide) rfl
      (by decide) (by decide) (by decide) |>.1 (by decide), ?_, ?_⟩
  · exact (alert_state_machine settingsRepeat5 tempSensor 23 360000 alertingState1 (by decide)
      rfl (by decide) (by decide) (by decide)).2 (by decide) |>.mpr (by decide)
  · decide

/-- C2: with per-sensor alerts enabled and pushover configured, a non-alerting
evaluation from the Alerting state sends exactly the one recovery
notification, sets the tracked state to not-Alerting, and clears the
per-sensor last-notified timestamp; from a not-Alerting state it sends
nothing. -/
theorem recovery_transition (settings : PushoverSettings) (sensor : Sensor) (v : Rat)
    (now : Int) (st : AlertState)
    (hen : sensor.alerts_enabled ≠ 0)
    (hae : settings.alertsEnabled = true)
    (ht : settings.token ≠ "") (hu : settings.user ≠ "")
    (hnot : (evalAlert sensor v).isAlert = false) :
    (st.lastAlertState sensor.id = some true →
      (checkAndNotifyAlert settings sensor v now st).2 =
        some ⟨"✓ " ++ sensor.type_ ++ " Normal",
              sensor.name ++ " is back within normal range: " ++ toString v ++ sensor.unit, 0⟩
      ∧ (checkAndNotifyAlert settings sensor v now st).1.lastAlertState sensor.id = some false
      ∧ (checkAndNotifyAlert settings sensor v now st).1.lastAlertSentTime sensor.id = none)
    ∧ (st.lastAlertState sensor.id ≠ some true →
      (checkAndNotifyAlert settings sensor v now st).2 = none) := by
  have hg : ¬ (¬ settings.alertsEnabled = true ∨ settings.token = "" ∨ settings.user = "") := by
    push_neg
    exact ⟨by simp [hae], ht, hu⟩
  constructor
  · intro hprev
    unfold checkAndNotifyAlert
    rw [if_neg hen, if_neg hg]
    simp [hnot, hprev]
  · intro hprev
    unfold checkAndNotifyAlert
    rw [if_neg hen, if_neg hg]
    simp [hnot, hprev]

/-- Witness for C2: sensor 1 is Alerting with a pending repeat timer; a
reading of 25 (inside 24..27) sends the recovery notification, clears the
flag and the timer; on the resulting state a further normal reading sends
nothing. -/
theorem recovery_transition_witness :
    ((checkAndNotifyAlert settingsRepeat0 tempSensor 25 1000 alertingState1).2 =
      some ⟨"✓ " ++ tempSensor.type_ ++ " Normal",
            tempSensor.name ++ " is back within normal range: "
              ++ toString (25 : Rat) ++ tempSensor.unit, 0⟩
      ∧ (checkAndNotifyAlert settingsRepeat0 tempSensor 25 1000 alertingState1).1.lastAlertState
          tempSensor.id = some false
      ∧ (checkAndNotifyAlert settingsRepeat0 tempSensor 25 1000
          alertingState1).1.lastAlertSentTime tempSensor.id = none)
    ∧ (checkAndNotifyAlert settingsRepeat0 tempSensor 25 2000
        (checkAndNotifyAlert settingsRepeat0 tempSensor 25 1000 alertingState1).1).2 = none := by
  constructor
  · exact (recovery_transition settingsRepeat0 tempSensor 25 1000 alertingState1 (by decide) rfl
      (by decide) (by decide) (by decide)).1 (by decide)
  · exact (recovery_transition settingsRepeat0 tempSensor 25 2000
      (checkAndNotifyAlert settingsRepeat0 tempSensor 25 1000 alertingState1).1 (by decide) rfl
      (by decide) (by decide) (by decide)).2 (by decide)

/-! ## Claims C6, C7, C8 -/

/-- C6: an ingestion request with a malformed API key, a non-numeric value
(`parseFloat` gives `NaN`), or a key matching no sensor is rejected with an
error response and mutates nothing: the database (readings included) and the
alert-tracking state are unchanged and no notification is sent — for both the
POST and the GET endpoint. -/
theorem ingest_rejected_no_mutation (db : Db) (st : AlertState) (settings : PushoverSettings)
    (api_key : String) (value : Option Rat) (now : Int)
    (h : isValidApiKey api_key = false ∨ value = none ∨
         db.sensors.find? (fun s => s.api_key = api_key) = none) :
    ((postData db st settings api_key value now).1 = db
      ∧ (postData db st settings api_key value now).2.1 = st
      ∧ (postData db st settings api_key value now).2.2.1.success = false
      ∧ (postData db st settings api_key value now).2.2.1.error.isSome = true
      ∧ (postData db st settings api_key value now).2.2.2 = none)
    ∧ ((getData db st settings api_key value now).1 = db
      ∧ (getData db st settings api_key value now).2.1 = st
      ∧ (getData db st settings api_key value now).2.2.1.success = false
      ∧ (getData db st settings api_key value now).2.2.1.error.isSome = true
      ∧ (getData db st settings api_key value now).2.2.2 = none) := by
  rcases h with hk | hv | hf
  · constructor <;> simp [postData, getData, hk]
  · by_cases hk : isValidApiKey api_key <;>
      constructor <;> simp [postData, getData, hk, hv, sanitizeNumber]
  · by_cases hk : isValidApiKey api_key
    · cases hs : sanitizeNumber value (some (-100000)) (some 100000) none with
      | none => constructor <;> simp [postData, getData, hk, hs]
      | some numValue => constructor <;> simp [postData, getData, hk, hs, hf]
    · constructor <;> simp [postData, getData, hk]

/-- Witness for C6: a well-formed but unknown API key against an empty
database is rejected by both endpoints without touching anything. -/
theorem ingest_rejected_no_mutation_witness :
    ((postData ⟨[], []⟩ emptyState settingsRepeat0
        "0123456789abcdef0123456789abcdef" (some 25) 0).1 = ⟨[], []⟩
      ∧ (postData ⟨[], []⟩ emptyState settingsRepeat0
          "0123456789abcdef0123456789abcdef" (some 25) 0).2.1 = emptyState
      ∧ (postData ⟨[], []⟩ emptyState settingsRepeat0
          "0123456789abcdef0123456789abcdef" (some 25) 0).2.2.1.success = false
      ∧ (postData ⟨[], []⟩ emptyState settingsRepeat0
          "0123456789abcdef0123456789abcdef" (some 25) 0).2.2.1.error.isSome = true
      ∧ (postData ⟨[], []⟩ emptyState settingsRepeat0
          "0123456789abcdef0123456789abcdef" (some 25) 0).2.2.2 = none)
    ∧ ((getData ⟨[], []⟩ emptyState settingsRepeat0
        "0123456789abcdef0123456789abcdef" (some 25) 0).1 = ⟨[], []⟩
      ∧ (getData ⟨[], []⟩ emptyState settingsRepeat0
          "0123456789abcdef0123456789abcdef" (some 25) 0).2.1 = emptyState
      ∧ (getData ⟨[], []⟩ emptyState settingsRepeat0
          "0123456789abcdef0123456789abcdef" (some 25) 0).2.2.1.success = false
      ∧ (getData ⟨[], []⟩ emptyState settingsRepeat0
          "0123456789abcdef0123456789abcdef" (some 25) 0).2.2.1.error.isSome = true
      ∧ (getData ⟨[], []⟩ emptyState settingsRepeat0
          "0123456789abcdef0123456789abcdef" (some 25) 0).2.2.2 = none) :=
  ingest_rejected_no_mutation ⟨[], []⟩ emptyState settingsRepeat0
    "0123456789abcdef0123456789abcdef" (some 25) 0 (Or.inr (Or.inr rfl))

/-- C7: an accepted ingestion request (POST or GET) targeting a float sensor
appends exactly one reading for that sensor, whose stored value is 0 or 1. -/
theorem float_reading_normalized (db : Db) (st : AlertState) (settings : PushoverSettings)
    (api_key : String) (value : Option Rat) (now : Int) (sensor : Sensor) (numValue : Rat)
    (hk : isValidApiKey api_key = true)
    (hs : sanitizeNumber value (some (-100000)) (some 100000) none = some numValue)
    (hf : db.sensors.find? (fun s => s.api_key = api_key) = some sensor)
    (hft : sensor.sensor_type = "float") :
    ∃ fv, (fv = 0 ∨ fv = 1)
      ∧ (postData db st settings api_key value now).1.readings = db.readings ++ [(sensor.id, fv)]
      ∧ (getData db st settings api_key value now).1.readings
          = db.readings ++ [(sensor.id, fv)] := by
  refine ⟨if numValue ≠ 0 then 1 else 0, ?_, ?_, ?_⟩
  · by_cases h : numValue ≠ 0 <;> simp [h]
  · simp [postData, hk, hs, hf, hft]
  · simp [getData, hk, hs, hf, hft]

/-- Witness for C7: a float sensor receiving the raw value 25 stores 1. -/
theorem float_reading_normalized_witness :
    ∃ fv, (fv = 0 ∨ fv = 1)
      ∧ (postData ⟨[floatSensor1], []⟩ emptyState settingsRepeat0
          "abcdef0123456789abcdef0123456789" (some 25) 0).1.readings
          = ([] : List (Nat × Rat)) ++ [(floatSensor1.id, fv)]
      ∧ (getData ⟨[floatSensor1], []⟩ emptyState settingsRepeat0
          "abcdef0123456789abcdef0123456789" (some 25) 0).1.readings
          = ([] : List (Nat × Rat)) ++ [(floatSensor1.id, fv)] :=
  float_reading_normalized ⟨[floatSensor1], []⟩ emptyState settingsRepeat0
    "abcdef0123456789abcdef0123456789" (some 25) 0 floatSensor1 25
    (by decide) (by decide) (by decide) rfl

/-- `sendPushoverNotification` never raises: every outcome of the external
call, a thrown error included, becomes a returned `{success, error}` object,
with `error` set whenever `success` is false. -/
theorem sendPushoverNotification_total (settings : PushoverSettings) (t m : String) (p : Nat)
    (fetch : FetchOutcome) :
    (sendPushoverNotification settings t m p fetch).success = true ∨
    (sendPushoverNotification settings t m p fetch).error.isSome = true := by
  unfold sendPushoverNotification
  split
  · right; rfl
  · cases fetch with
    | ok status errors =>
      dsimp only
      by_cases h : status = some 1
      · rw [if_pos h]
        left
        rfl
      · rw [if_neg h]
        right
        rfl
    | threw msg => right; rfl

/-- C8: for an accepted ingestion request, whatever the outcome of the
notification delivery (`fetch`), the reading is appended to the readings
table and the response is the 200 success object — the insert happens before
the evaluation and is never rolled back; at most one send is attempted (no
retry), and a failed send yields a `SendResult` carrying an error instead of
an exception. -/
theorem ingest_persists_and_delivery_nonfatal (db : Db) (st : AlertState)
    (settings : PushoverSettings) (api_key : String) (value : Option Rat) (now : Int)
    (sensor : Sensor) (numValue : Rat)
    (hk : isValidApiKey api_key = true)
    (hs : sanitizeNumber value (some (-100000)) (some 100000) none = some numValue)
    (hf : db.sensors.find? (fun s => s.api_key = api_key) = some sensor) :
    ∀ fetch : FetchOutcome,
      (∃ fv, (postDataRun db st settings api_key value now fetch).1.readings
          = db.readings ++ [(sensor.id, fv)])
      ∧ (postDataRun db st settings api_key value now fetch).2.2.1
          = ⟨200, none, true⟩
      ∧ (postDataRun db st settings api_key value now fetch).2.2.2.length ≤ 1
      ∧ ∀ r ∈ (postDataRun db st settings api_key value now fetch).2.2.2,
          r.success = true ∨ r.error.isSome = true := by
  intro fetch
  refine ⟨⟨if sensor.sensor_type = "float" then (if numValue ≠ 0 then (1 : Rat) else 0)
    else numValue, ?_⟩, ?_, ?_, ?_⟩
  · simp [postDataRun, postData, hk, hs, hf]
  · simp [postDataRun, postData, hk, hs, hf]
  · unfold postDataRun
    cases ho : (postData db st settings api_key value now).2.2.2 with
    | none => simp [runNotification, ho]
    | some n => simp [runNotification, ho]
  · intro r hr
    unfold postDataRun at hr
    cases ho : (postData db st settings api_key value now).2.2.2 with
    | none => simp [runNotification, ho] at hr
    | some n =>
      simp only [runNotification, ho, List.mem_singleton] at hr
      rw [hr]
      exact sendPushoverNotification_total settings n.title n.message n.priority fetch

/-- Witness for C8: a reading that drives the temperature sensor into alert
triggers a notification whose delivery throws, yet the reading is stored and
the response is a success. -/
theorem ingest_persists_and_delivery_nonfatal_witness :
    (∃ fv, (postDataRun ⟨[tempSensor], []⟩ emptyState settingsRepeat0
        "0123456789abcdef0123456789abcdef" (some 23) 0 (.threw "network down")).1.readings
        = ([] : List (Nat × Rat)) ++ [(tempSensor.id, fv)])
    ∧ (postDataRun ⟨[tempSensor], []⟩ emptyState settingsRepeat0
        "0123456789abcdef0123456789abcdef" (some 23) 0 (.threw "network down")).2.2.1
        = ⟨200, none, true⟩
    ∧ (postDataRun ⟨[tempSensor], []⟩ emptyState settingsRepeat0
        "0123456789abcdef0123456789abcdef" (some 23) 0 (.threw "network down")).2.2.2.length ≤ 1
    ∧ ∀ r ∈ (postDataRun ⟨[tempSensor], []⟩ emptyState settingsRepeat0
        "0123456789abcdef0123456789abcdef" (some 23) 0 (.threw "network down")).2.2.2,
        r.success = true ∨ r.error.isSome = true :=
  ingest_persists_and_delivery_nonfatal ⟨[tempSensor], []⟩ emptyState settingsRepeat0
    "0123456789abcdef0123456789abcdef" (some 23) 0 tempSensor 23
    (by decide) (by decide) (by decide) (.threw "network down")

/-! ## Claim C9 -/

theorem getValueStatus_some (v : Rat) (mn mx : Option Rat) :
    getValueStatus (some v) mn mx =
      if mn = none ∧ mx = none then "Active"
      else if ltBound v mn then "Too Low"
      else if gtBound v mx then "Too High"
      else "Normal" := rfl

theorem getFloatStatus_some (v : Rat) (ok : Option Rat) :
    getFloatStatus (some v) ok = if some v = ok then "OK" else "Alert" := rfl

/-- C9: the status `GET /api/parameters` derives for a sensor with a latest
reading agrees with the alert evaluator under the same configuration: a value
sensor reads "Too Low"/"Too High" exactly when the evaluator alerts (and
"Normal" when bounds are configured and it does not), and a float sensor with
a configured OK value reads "Alert" exactly when the evaluator alerts ("OK"
otherwise). -/
theorem parameters_status_matches_evaluator (sensor : Sensor) (v : Rat) :
    (sensor.sensor_type = "value" →
      ((parameterStatus sensor (some v) = "Too Low" ∨
          parameterStatus sensor (some v) = "Too High")
        ↔ (evalAlert sensor v).isAlert = true)
      ∧ (¬ (sensor.min_value = none ∧ sensor.max_value = none) →
          (evalAlert sensor v).isAlert = false → parameterStatus sensor (some v) = "Normal"))
    ∧ (∀ ok, sensor.sensor_type = "float" → sensor.float_ok_value = some ok →
      ((parameterStatus sensor (some v) = "Alert" ↔ (evalAlert sensor v).isAlert = true)
        ∧ ((evalAlert sensor v).isAlert = false → parameterStatus sensor (some v) = "OK"))) := by
  constructor
  · intro hv
    have hf : sensor.sensor_type ≠ "float" := by rw [hv]; decide
    have hia := evalAlert_value_isAlert sensor v hf
    have hps : parameterStatus sensor (some v)
        = getValueStatus (some v) sensor.min_value sensor.max_value := by
      unfold parameterStatus
      rw [if_neg hf]
    constructor
    · rw [hps, hia, getValueStatus_some]
      by_cases hb : sensor.min_value = none ∧ sensor.max_value = none
      · rw [if_pos hb]
        obtain ⟨h1, h2⟩ := hb
        rw [h1, h2]
        constructor
        · rintro (h | h) <;> exact absurd h (by decide)
        · intro h
          simp [ltBound, gtBound] at h
      · rw [if_neg hb]
        by_cases hl : ltBound v sensor.min_value = true
        · rw [if_pos hl]
          simp [hl]
        · rw [if_neg hl]
          by_cases hg : gtBound v sensor.max_value = true
          · rw [if_pos hg]
            simp [hg]
          · rw [if_neg hg]
            constructor
            · rintro (h | h) <;> exact absurd h (by decide)
            · intro h
              rcases Bool.or_eq_true _ _ ▸ h with h' | h'
              · exact absurd h' hl
              · exact absurd h' hg
    · intro hb hno
      rw [hia] at hno
      have hl : ltBound v sensor.min_value = false := by
        rcases Bool.or_eq_false_iff.mp hno with ⟨h1, _⟩
        exact h1
      have hg : gtBound v sensor.max_value = false := by
        rcases Bool.or_eq_false_iff.mp hno with ⟨_, h2⟩
        exact h2
      rw [hps, getValueStatus_some, if_neg hb, hl, hg]
      rfl
  · intro ok hft hok
    have hps : parameterStatus sensor (some v) = getFloatStatus (some v) (some ok) := by
      unfold parameterStatus
      rw [if_pos hft, hok]
    have hchar := float_alert_characterization sensor v ok hft hok
    constructor
    · rw [hps, getFloatStatus_some]
      by_cases he : v = ok
      · rw [if_pos (by rw [he])]
        constructor
        · intro h
          exact absurd h (by decide)
        · intro h
          exact absurd (hchar.mp h) (by simp [he])
      · rw [if_neg (by simpa using he)]
        simp only [true_iff]
        exact hchar.mpr he
    · intro hno
      have he : v = ok := by
        by_contra hne
        rw [hchar.mpr hne] at hno
        cases hno
      rw [hps, getFloatStatus_some, if_pos (by rw [he])]

/-- Witness for C9: the temperature sensor at 23 reads "Too Low" (evaluator
alerts), at 25 reads "Normal"; the float sensor at 0 reads "Alert", at 1
reads "OK". -/
theorem parameters_status_matches_evaluator_witness :
    (parameterStatus tempSensor (some 23) = "Too Low" ∨
        parameterStatus tempSensor (some 23) = "Too High")
    ∧ parameterStatus tempSensor (some 25) = "Normal"
    ∧ parameterStatus floatSensor1 (some 0) = "Alert"
    ∧ parameterStatus floatSensor1 (some 1) = "OK" := by
  refine ⟨((parameters_status_matches_evaluator tempSensor 23).1 rfl).1.mpr (by decide),
    ((parameters_status_matches_evaluator tempSensor 25).1 rfl).2 (by decide) (by decide),
    ((parameters_status_matches_evaluator floatSensor1 0).2 1 rfl rfl).1.mpr (by decide),
    ((parameters_status_matches_evaluator floatSensor1 1).2 1 rfl rfl).2 (by decide)⟩

/-! ## Claim C10 -/

theorem valuesOn_append_singleton (rs : List TelemetryReading) (r : TelemetryReading)
    (day : String) :
    valuesOn (rs ++ [r]) day
      = valuesOn rs day ++ (if r.day = day then [r.value] else []) := by
  unfold valuesOn
  rw [List.filter_append, List.map_append]
  by_cases h : r.day = day <;> simp [List.filter, h]

theorem entryInv_update (sensor : Sensor) (rs : List TelemetryReading) (r : TelemetryReading)
    (d : DayAcc) (hd : entryInv sensor rs d) (hdd : d.date = r.day) :
    entryInv sensor (rs ++ [r]) (updateDay sensor d r.value) := by
  obtain ⟨hr, hne, hal, hmn, hmx, hbd⟩ := hd
  unfold entryInv updateDay
  dsimp only
  refine ⟨?_, by simp, ?_, ?_, ?_, ?_⟩
  · rw [valuesOn_append_singleton, if_pos hdd.symm, hr]
  · rw [hal, List.any_append]
    simp
  · rcases min_choice d.min r.value with h | h
    · rw [h]
      exact List.mem_append_left _ hmn
    · rw [h]
      exact List.mem_append_right _ (List.mem_singleton_self _)
  · rcases max_choice d.max r.value with h | h
    · rw [h]
      exact List.mem_append_left _ hmx
    · rw [h]
      exact List.mem_append_right _ (List.mem_singleton_self _)
  · intro x hx
    rcases List.mem_append.mp hx with h | h
    · exact ⟨le_trans (min_le_left _ _) (hbd x h).1,
        le_trans (hbd x h).2 (le_max_left _ _)⟩
    · rw [List.mem_singleton.mp h]
      exact ⟨min_le_right _ _, le_max_right _ _⟩

theorem entryInv_preserve (sensor : Sensor) (rs : List TelemetryReading)
    (r : TelemetryReading) (d : DayAcc) (hd : entryInv sensor rs d)
    (hdd : d.date ≠ r.day) :
    entryInv sensor (rs ++ [r]) d := by
  obtain ⟨hr, rest⟩ := hd
  refine ⟨?_, rest⟩
  rw [valuesOn_append_singleton, if_neg (fun h => hdd h.symm), List.append_nil, hr]

theorem entryInv_new (sensor : Sensor) (rs : List TelemetryReading) (r : TelemetryReading)
    (hempty : valuesOn rs r.day = []) :
    entryInv sensor (rs ++ [r]) (updateDay sensor (newDay r.day r.value) r.value) := by
  unfold entryInv updateDay newDay
  dsimp only
  refine ⟨?_, by simp, by simp, ?_, ?_, ?_⟩
  · rw [valuesOn_append_singleton, hempty, if_pos rfl]
  · rw [min_self, List.nil_append]
    exact List.mem_singleton_self _
  · rw [max_self, List.nil_append]
    exact List.mem_singleton_self _
  · intro x hx
    rw [List.nil_append, List.mem_singleton] at hx
    rw [hx]
    exact ⟨min_le_left _ _, le_max_left _ _⟩

theorem accOk_addReading (sensor : Sensor) (rs : List TelemetryReading) (acc : List DayAcc)
    (r : TelemetryReading) (h : accOk sensor rs acc) :
    accOk sensor (rs ++ [r]) (addReading sensor acc r) := by
  obtain ⟨hent, hpw, hex⟩ := h
  unfold addReading
  by_cases hmem : acc.any (fun d => d.date = r.day) = true
  · rw [if_pos hmem]
    have hfdate : ∀ d : DayAcc,
        ((if d.date = r.day then updateDay sensor d r.value else d) : DayAcc).date
          = d.date := by
      intro d
      by_cases hdd : d.date = r.day <;> simp [hdd, updateDay]
    refine ⟨?_, ?_, ?_⟩
    · intro d' hd'
      obtain ⟨d, hd, hfd⟩ := List.mem_map.mp hd'
      by_cases hdd : d.date = r.day
      · rw [if_pos hdd] at hfd
        rw [← hfd]
        exact entryInv_update sensor rs r d (hent d hd) hdd
      · rw [if_neg hdd] at hfd
        rw [← hfd]
        exact entryInv_preserve sensor rs r d (hent d hd) hdd
    · rw [List.pairwise_map]
      refine hpw.imp ?_
      intro a b hab
      rw [hfdate a, hfdate b]
      exact hab
    · intro day hday
      rw [valuesOn_append_singleton] at hday
      by_cases h0 : valuesOn rs day = []
      · rw [h0, List.nil_append] at hday
        have hrd : r.day = day := by
          by_contra hne
          rw [if_neg hne] at hday
          exact hday rfl
        obtain ⟨d, hd, hdd⟩ := List.any_eq_true.mp hmem
        refine ⟨if d.date = r.day then updateDay sensor d r.value else d,
          List.mem_map.mpr ⟨d, hd, rfl⟩, ?_⟩
        rw [hfdate d, of_decide_eq_true hdd, hrd]
      · obtain ⟨d, hd, hdd⟩ := hex day h0
        refine ⟨if d.date = r.day then updateDay sensor d r.value else d,
          List.mem_map.mpr ⟨d, hd, rfl⟩, ?_⟩
        rw [hfdate d, hdd]
  · rw [if_neg hmem]
    have hnone : ∀ d ∈ acc, d.date ≠ r.day := by
      intro d hd
      by_contra hdd
      exact hmem (List.any_eq_true.mpr ⟨d, hd, decide_eq_true hdd⟩)
    have hempty : valuesOn rs r.day = [] := by
      by_contra h0
      obtain ⟨d, hd, hdd⟩ := hex r.day h0
      exact hnone d hd hdd
    refine ⟨?_, ?_, ?_⟩
    · intro d' hd'
      rcases List.mem_append.mp hd' with hin | hnew
      · exact entryInv_preserve sensor rs r d' (hent d' hin) (hnone d' hin)
      · rw [List.mem_singleton.mp hnew]
        exact entryInv_new sensor rs r hempty
    · rw [List.pairwise_append]
      refine ⟨hpw, List.pairwise_singleton _ _, ?_⟩
      intro a ha b hb
      rw [List.mem_singleton.mp hb]
      exact hnone a ha
    · intro day hday
      rw [valuesOn_append_singleton] at hday
      by_cases h0 : valuesOn rs day = []
      · rw [h0, List.nil_append] at hday
        have hrd : r.day = day := by
          by_contra hne
          rw [if_neg hne] at hday
          exact hday rfl
        exact ⟨updateDay sensor (newDay r.day r.value) r.value,
          List.mem_append_right _ (List.mem_singleton_self _), hrd⟩
      · obtain ⟨d, hd, hdd⟩ := hex day h0
        exact ⟨d, List.mem_append_left _ hd, hdd⟩

theorem accOk_foldl (sensor : Sensor) (rest : List TelemetryReading) :
    ∀ (pre : List TelemetryReading) (acc : List DayAcc), accOk sensor pre acc →
      accOk sensor (pre ++ rest) (rest.foldl (addReading sensor) acc) := by
  induction rest with
  | nil =>
    intro pre acc h
    simpa using h
  | cons r rest ih =>
    intro pre acc h
    have h2 := ih (pre ++ [r]) (addReading sensor acc r) (accOk_addReading sensor pre acc r h)
    simpa [List.append_assoc] using h2

theorem accOk_full (sensor : Sensor) (rs : List TelemetryReading) :
    accOk sensor rs (rs.foldl (addReading sensor) []) := by
  have h0 : accOk sensor [] [] := by
    refine ⟨by simp, List.Pairwise.nil, ?_⟩
    intro day h
    simp [valuesOn] at h
  simpa using accOk_foldl sensor rs [] [] h0

/-- C10: every entry of the telemetry `dailySummary` array describes exactly
the readings grouped into its day: `count` is their number, `min`/`max` are
the least/greatest value among them, `avg` is their sum divided by their
count, `hasAlert` holds iff some reading of that day is out of range for the
sensor, and the array is in ascending date order. -/
theorem daily_summary_correct (sensor : Sensor) (rs : List TelemetryReading) :
    (∀ day ∈ dailySummary sensor rs,
      valuesOn rs day.date ≠ []
      ∧ day.count = (valuesOn rs day.date).length
      ∧ day.min ∈ valuesOn rs day.date
      ∧ day.max ∈ valuesOn rs day.date
      ∧ (∀ x ∈ valuesOn rs day.date, day.min ≤ x ∧ x ≤ day.max)
      ∧ day.avg = (valuesOn rs day.date).sum / ((valuesOn rs day.date).length : Rat)
      ∧ (day.hasAlert = true ↔ ∃ x ∈ valuesOn rs day.date, isOutOfRange sensor x = true))
    ∧ List.Pairwise (fun a b => a.date ≤ b.date) (dailySummary sensor rs) := by
  have hacc := accOk_full sensor rs
  constructor
  · intro day hday
    have hmem : day ∈ (rs.foldl (addReading sensor) []).map finalizeDay :=
      List.mem_mergeSort.mp hday
    obtain ⟨d, hd, hfd⟩ := List.mem_map.mp hmem
    obtain ⟨hr, hne, hal, hmn, hmx, hbd⟩ := hacc.1 d hd
    have hdate : day.date = d.date := by rw [← hfd]; rfl
    have hvs : valuesOn rs day.date = d.readings := by rw [hdate, hr]
    rw [hvs]
    refine ⟨hne, ?_, ?_, ?_, ?_, ?_, ?_⟩
    · rw [← hfd]; rfl
    · rw [← hfd]; exact hmn
    · rw [← hfd]; exact hmx
    · intro x hx
      rw [← hfd]
      exact hbd x hx
    · rw [← hfd]
      show d.readings.foldl (· + ·) 0 / (d.readings.length : Rat)
        = d.readings.sum / (d.readings.length : Rat)
      rw [List.sum_eq_foldl]
    · rw [← hfd]
      show d.hasAlert = true ↔ _
      rw [hal, List.any_eq_true]
  · have htrans : ∀ a b c : DaySummary, decide (a.date ≤ b.date) = true →
        decide (b.date ≤ c.date) = true → decide (a.date ≤ c.date) = true := by
      intro a b c hab hbc
      exact decide_eq_true (le_trans (of_decide_eq_true hab) (of_decide_eq_true hbc))
    have htot : ∀ a b : DaySummary,
        (decide (a.date ≤ b.date) || decide (b.date ≤ a.date)) = true := by
      intro a b
      rcases le_total a.date b.date with h | h <;> simp [h]
    have hsorted := List.sorted_mergeSort htrans htot
      ((rs.foldl (addReading sensor) []).map finalizeDay)
    exact hsorted.imp (fun h => of_decide_eq_true h)

/-- Concrete evaluation of the daily summary on `exReadings`. -/
theorem dailySummary_exReadings :
    dailySummary tempSensor exReadings = [exDay1, exDay2] := by
  have hne : ("2025-01-01" : String) ≠ "2025-01-02" := by decide
  have hvf : ("value" : String) ≠ "float" := by decide
  have h1 : (exReadings.foldl (addReading tempSensor) []).map finalizeDay
      = [exDay1, exDay2] := by
    norm_num [exReadings, addReading, updateDay, newDay, finalizeDay, isOutOfRange,
      ltBound, gtBound, tempSensor, exDay1, exDay2, hne, hvf]
  unfold dailySummary
  rw [h1]
  refine List.mergeSort_of_sorted (List.pairwise_cons.mpr ⟨?_, List.pairwise_singleton _ _⟩)
  intro b hb
  rw [List.mem_singleton.mp hb]
  apply decide_eq_true
  show ("2025-01-01" : String) ≤ "2025-01-02"
  rw [String.le_iff_toList_le]
  decide

/-- Witness for C10 at `exReadings`: the 2025-01-01 summary of the temperature
sensor counts its two readings, has min 23, max 25, avg 24, and flags an alert
because 23 is below the min bound. -/
theorem daily_summary_correct_witness :
    valuesOn exReadings exDay1.date ≠ []
    ∧ exDay1.count = (valuesOn exReadings exDay1.date).length
    ∧ exDay1.min ∈ valuesOn exReadings exDay1.date
    ∧ exDay1.max ∈ valuesOn exReadings exDay1.date
    ∧ (∀ x ∈ valuesOn exReadings exDay1.date, exDay1.min ≤ x ∧ x ≤ exDay1.max)
    ∧ exDay1.avg = (valuesOn exReadings exDay1.date).sum
        / ((valuesOn exReadings exDay1.date).length : Rat)
    ∧ (exDay1.hasAlert = true ↔ ∃ x ∈ valuesOn exReadings exDay1.date,
        isOutOfRange tempSensor x = true) :=
  (daily_summary_correct tempSensor exReadings).1 exDay1
    (by rw [dailySummary_exReadings]; exact List.mem_cons_self _ _)

end Aquarium
